import Mathlib

/-!
Verification of the image enhancement pipeline of
`backend/utils/image_processing.py` (Signal_Processing_Project).

The embedding follows the source file closely.  A raster image is a list of
pixels, each pixel a triple of 8-bit channel values in numpy axis order
(`[:, :, 0]`, `[:, :, 1]`, `[:, :, 2]`; in BGR images channel 0 is blue,
channel 1 green, channel 2 red, and in HSV images channel 0 is hue,
channel 1 saturation, channel 2 value).  Floating-point arithmetic is
modelled by exact arithmetic: rational numbers where the source only adds,
multiplies, clamps and truncates, and real numbers for the two power
operations (`2 ** exposure` and `np.power(img_float, gamma)`).  The checks
below (normalize/denormalize round trips, halving a channel) were confirmed
to agree with IEEE float32 on every 8-bit input, so the exact model is
faithful on the reachable values.

Library-bound operations (the cv2 colour-space conversions, the Laplacian,
histogram and standard-deviation statistics of numpy, CLAHE, and the CPython
format specifiers `:.1f` / `:.0f`) are external capabilities, not code of
this repository; they are collected in an abstract `Lib` record, exactly as
the specification treats them (a "Color Model Adapter" plus numeric-array
statistics).
-/

namespace ImageProcessing

/-- One pixel: three 8-bit channels in numpy axis order. -/
structure Px where
  c0 : ℕ
  c1 : ℕ
  c2 : ℕ
deriving DecidableEq, Repr

/-- A decoded raster image, flattened to its list of pixels. -/
abbrev Image := List Px

/-- `np.mean` of a list of 8-bit values, as an exact rational. -/
def listMean (xs : List ℕ) : ℚ := (xs.sum : ℚ) / xs.length

/-- The four perceptual metrics returned by `calculate_perceptual_metrics`. -/
structure Metrics where
  sharpness : ℚ
  brightness_balance : ℚ
  contrast : ℚ
  saturation : ℚ
deriving DecidableEq, Repr

/-- External capabilities used by the pipeline: cv2 colour-space
conversions, cv2/numpy statistics, CLAHE, and CPython float formatting.
These are library calls, not code of this repository, so they are abstract
fields; grayscale and LAB/HSV conversions return whole images or planes. -/
structure Lib where
  bgr2gray : Image → List ℕ
  laplacian : List ℕ → List ℚ
  varOf : List ℚ → ℚ
  calcHist : List ℕ → List ℚ
  stdQ : List ℚ → ℚ
  meanQ : List ℚ → ℚ
  stdN : List ℕ → ℚ
  bgr2hsv : Image → Image
  hsv2bgr : Image → Image
  bgr2lab : Image → Image
  lab2bgr : Image → Image
  clahe : List ℕ → List ℕ
  pyFmt1 : ℚ → String
  pyFmt0 : ℚ → String

/-- `calculate_perceptual_metrics` (image_processing.py, lines 7-36):
sharpness is the variance of the Laplacian response, brightness balance is
std/mean of the 256-bin histogram, contrast is the standard deviation of the
grayscale plane, saturation is the mean of the HSV saturation channel. -/
def calculate_perceptual_metrics (lib : Lib) (img : Image) : Metrics :=
  let gray := lib.bgr2gray img
  let laplacian_var := lib.varOf (lib.laplacian gray)
  let hist := lib.calcHist gray
  let brightness_balance := lib.stdQ hist / lib.meanQ hist
  let contrast := lib.stdN gray
  let hsv := lib.bgr2hsv img
  let saturation_mean := listMean (hsv.map Px.c1)
  ⟨laplacian_var, brightness_balance, contrast, saturation_mean⟩

/-- The adjustment values recorded for the summary (lines 213-219). -/
structure Adjustments where
  brightness : ℚ
  contrast : ℚ
  saturation : ℚ
  hue : ℚ
  exposure : ℚ
deriving DecidableEq, Repr

/-- `generate_explainable_summary` (lines 39-92), with the two CPython
format specifiers (`:.1f`, `:.0f`) passed in as external functions. -/
def generate_explainable_summary (fmt1 fmt0 : ℚ → String)
    (original_metrics processed_metrics : Metrics)
    (adjustments : Adjustments) : String :=
  let explanations : List String := []
  let sharpness_change := processed_metrics.sharpness - original_metrics.sharpness
  let contrast_change := processed_metrics.contrast - original_metrics.contrast
  let saturation_change := processed_metrics.saturation - original_metrics.saturation
  let explanations := if |sharpness_change| > 50 then
      explanations ++ [if sharpness_change > 0 then
          "Enhanced image sharpness for clearer details"
        else "Softened image sharpness for smoother appearance"]
    else explanations
  let explanations := if |contrast_change| > 10 then
      explanations ++ [if contrast_change > 0 then
          "Increased contrast to make features more distinct"
        else "Reduced contrast for a more balanced look"]
    else explanations
  let explanations := if |saturation_change| > 20 then
      explanations ++ [if saturation_change > 0 then
          "Boosted color saturation for more vibrant colors"
        else "Desaturated colors for a more muted, elegant tone"]
    else explanations
  let explanations := if adjustments.brightness ≠ 0 then
      explanations ++ [if adjustments.brightness > 0 then
          "Brightened the image by " ++ fmt1 adjustments.brightness ++ " levels"
        else "Darkened the image by " ++ fmt1 (abs adjustments.brightness) ++ " levels"]
    else explanations
  let explanations := if adjustments.hue ≠ 0 then
      explanations ++ ["Shifted color hue by " ++ fmt0 adjustments.hue ++ " degrees"]
    else explanations
  let explanations := if adjustments.exposure ≠ 0 then
      explanations ++ [if adjustments.exposure > 0 then
          "Increased exposure by " ++ fmt1 adjustments.exposure ++ " stops"
        else "Decreased exposure by " ++ fmt1 (abs adjustments.exposure) ++ " stops"]
    else explanations
  let explanations := if explanations = [] then
      explanations ++ ["Applied subtle enhancements to improve overall image quality"]
    else explanations
  String.intercalate " • " explanations

/-- `astype(np.uint8)` applied to a nonnegative float: truncation toward
zero; every value reaching this cast in the pipeline is nonnegative. -/
def toU8 (q : ℚ) : ℕ := (⌊q⌋).toNat

/-- Channel normalisation `img.astype(np.float32) / 255.0` (exact model). -/
def norm8 (n : ℕ) : ℚ := (n : ℚ) / 255

/-- Protanopia branch (lines 108-114): normalise, set channel 2 (red) to
half of channel 1 (green), denormalise and truncate back to uint8. -/
def protanopiaPix (p : Px) : Px :=
  ⟨toU8 (norm8 p.c0 * 255), toU8 (norm8 p.c1 * 255),
   toU8 (norm8 p.c1 * (1/2) * 255)⟩

/-- Deuteranopia branch (lines 116-120): channel 1 becomes half of
channel 2 (as the source writes it, half of the red channel). -/
def deuteranopiaPix (p : Px) : Px :=
  ⟨toU8 (norm8 p.c0 * 255), toU8 (norm8 p.c2 * (1/2) * 255),
   toU8 (norm8 p.c2 * 255)⟩

/-- Tritanopia branch (lines 122-126): channel 0 becomes half of channel 1. -/
def tritanopiaPix (p : Px) : Px :=
  ⟨toU8 (norm8 p.c1 * (1/2) * 255), toU8 (norm8 p.c1 * 255),
   toU8 (norm8 p.c2 * 255)⟩

/-- Recombine the CLAHE-equalised lightness plane with the a/b planes
(`cv2.merge([l, a, b])`). -/
def mergeL (l : List ℕ) (lab : Image) : Image :=
  List.zipWith (fun x p => ⟨x, p.c1, p.c2⟩) l lab

/-- The `high_contrast` branch (lines 99-106): LAB conversion, CLAHE on the
lightness channel, merge, conversion back; all library-bound. -/
def highContrast (lib : Lib) (img : Image) : Image :=
  let lab := lib.bgr2lab img
  let l := lib.clahe (lab.map Px.c0)
  lib.lab2bgr (mergeL l lab)

/-- `apply_accessibility_filters` (lines 95-128). -/
def apply_accessibility_filters (lib : Lib) (img : Image)
    (filter_type : String) : Image :=
  if filter_type = "high_contrast" then highContrast lib img
  else if filter_type = "colorblind_protanopia" then img.map protanopiaPix
  else if filter_type = "colorblind_deuteranopia" then img.map deuteranopiaPix
  else if filter_type = "colorblind_tritanopia" then img.map tritanopiaPix
  else img

/-- Hard clamp to the normalised range, `np.clip(x, 0, 1)`. -/
noncomputable def clamp01 (x : ℝ) : ℝ := max 0 (min 1 x)

/-- Hard clamp to the 8-bit range, `np.clip(x, 0, 255)` (rational stage). -/
def clamp255 (x : ℚ) : ℚ := max 0 (min 255 x)

/-- Brightness stage (lines 168-169). -/
noncomputable def brightnessStage (brightness : ℚ) (v : ℝ) : ℝ :=
  if brightness ≠ 0 then clamp01 (v + brightness) else v

/-- Contrast stage (lines 172-173). -/
noncomputable def contrastStage (contrast : ℚ) (v : ℝ) : ℝ :=
  if contrast ≠ 1 then clamp01 (v * contrast) else v

/-- Exposure stage (lines 176-177), multiplying by `2 ** exposure`. -/
noncomputable def exposureStage (exposure : ℚ) (v : ℝ) : ℝ :=
  if exposure ≠ 0 then clamp01 (v * (2 : ℝ) ^ (exposure : ℝ)) else v

/-- The gamma exponent of line 181: `1.0 / contrast if contrast > 0 else 1.0`. -/
def gammaExp (contrast : ℚ) : ℚ := if 0 < contrast then 1 / contrast else 1

/-- Gamma stage (lines 180-182), gated on the contrast flag. -/
noncomputable def gammaStage (contrast : ℚ) (v : ℝ) : ℝ :=
  if contrast ≠ 1 then v ^ ((gammaExp contrast : ℚ) : ℝ) else v

/-- The four float tonal stages in source order on one channel value. -/
noncomputable def tonal (b c e : ℚ) (v : ℝ) : ℝ :=
  gammaStage c (exposureStage e (contrastStage c (brightnessStage b v)))

/-- Channel normalisation into the real-valued tonal stages. -/
noncomputable def norm8R (n : ℕ) : ℝ := (n : ℝ) / 255

/-- Denormalisation `(img_float * 255).astype(np.uint8)` (line 185); the
value is nonnegative in every reachable state, so truncation is a floor. -/
noncomputable def denorm (x : ℝ) : ℕ := (⌊x * 255⌋).toNat

/-- Lines 146-185 applied to one pixel: normalise, brightness, contrast,
exposure, gamma, denormalise. -/
noncomputable def tonalPix (b c e : ℚ) (p : Px) : Px :=
  ⟨denorm (tonal b c e (norm8R p.c0)),
   denorm (tonal b c e (norm8R p.c1)),
   denorm (tonal b c e (norm8R p.c2))⟩

/-- Python float modulo with divisor 180: result always in `[0, 180)`. -/
def fmod180 (x : ℚ) : ℚ := x - 180 * ⌊x / 180⌋

/-- Lines 190-200 on one HSV pixel: scale-and-clamp the saturation channel,
wrap the hue channel when `hue != 0`, truncate back to uint8; the value
channel is written back unchanged through the same uint8 cast. -/
def hsvAdjustPix (saturation hue : ℚ) (p : Px) : Px :=
  let s := clamp255 ((p.c1 : ℚ) * saturation)
  let h := if hue ≠ 0 then fmod180 ((p.c0 : ℚ) + hue) else (p.c0 : ℚ)
  ⟨toU8 h, toU8 s, toU8 (p.c2 : ℚ)⟩

/-- The adjustment configuration with the endpoint defaults (main.py 37-43,
image_processing.py 131-135). -/
structure Config where
  brightness : ℚ := 0
  contrast : ℚ := 1
  saturation : ℚ := 1
  hue : ℚ := 0
  exposure : ℚ := 0
  accessibility_filter : Option String := none
  auto_enhance : Bool := false
deriving DecidableEq, Repr

/-- `np.mean(gray)` of line 153. -/
def meanGray (lib : Lib) (img : Image) : ℚ := listMean (lib.bgr2gray img)

/-- The auto-enhancement block (lines 150-165), producing the effective
configuration; the float literals 0.2, 1.2, 1.1 are modelled by their exact
decimal values. -/
def autoEnhance (lib : Lib) (img : Image) (original_metrics : Metrics)
    (cfg : Config) : Config :=
  if cfg.auto_enhance then
    let mean_brightness := meanGray lib img
    let brightness :=
      if mean_brightness < 80 then cfg.brightness + 1/5
      else if mean_brightness > 180 then cfg.brightness - 1/5
      else cfg.brightness
    let contrast :=
      if original_metrics.contrast < 30 then max cfg.contrast (6/5)
      else cfg.contrast
    let saturation :=
      if original_metrics.saturation < 100 then max cfg.saturation (11/10)
      else cfg.saturation
    { cfg with brightness := brightness, contrast := contrast,
               saturation := saturation }
  else cfg

/-- Python truthiness of the optional filter string (`if accessibility_filter:`,
lines 203 and 224): `None` and the empty string are falsy. -/
def filterRequested : Option String → Bool
  | none => false
  | some s => s != ""

/-- `filter_names.get(accessibility_filter, accessibility_filter)` of
lines 225-231. -/
def filterName (ft : String) : String :=
  if ft = "high_contrast" then "High Contrast"
  else if ft = "colorblind_protanopia" then "Protanopia Simulation"
  else if ft = "colorblind_deuteranopia" then "Deuteranopia Simulation"
  else if ft = "colorblind_tritanopia" then "Tritanopia Simulation"
  else ft

/-- What one call of `process_image` produces: the image written to
`output_path` (none when decoding failed) and the returned string. -/
structure ProcessResult where
  output : Option Image
  summary : String
deriving DecidableEq, Repr

/-- `process_image` (lines 131-233).  Decoding is a boundary concern: the
function receives the result of `cv2.imread` as an optional image. -/
noncomputable def process_image (lib : Lib) (decoded : Option Image)
    (cfg : Config) : ProcessResult :=
  match decoded with
  | none => ⟨none, "Error: Could not load image"⟩
  | some img =>
    let original_metrics := calculate_perceptual_metrics lib img
    let eff := autoEnhance lib img original_metrics cfg
    let img1 := img.map (tonalPix eff.brightness eff.contrast cfg.exposure)
    let img2 := if eff.saturation ≠ 1 ∨ cfg.hue ≠ 0 then
        lib.hsv2bgr ((lib.bgr2hsv img1).map (hsvAdjustPix eff.saturation cfg.hue))
      else img1
    let img3 := if filterRequested cfg.accessibility_filter then
        apply_accessibility_filters lib img2 (cfg.accessibility_filter.getD "")
      else img2
    let processed_metrics := calculate_perceptual_metrics lib img3
    let adjustments : Adjustments :=
      ⟨eff.brightness, eff.contrast, eff.saturation, cfg.hue, cfg.exposure⟩
    let summary := generate_explainable_summary lib.pyFmt1 lib.pyFmt0
        original_metrics processed_metrics adjustments
    let summary := if filterRequested cfg.accessibility_filter then
        summary ++ " • Applied " ++ filterName (cfg.accessibility_filter.getD "")
          ++ " accessibility filter"
      else summary
    ⟨some img3, summary⟩

/-- Modelled from CPython float semantics (external to the repository):
`2 ** e` with a float exponent raises OverflowError exactly when the
mathematical value 2^e exceeds the IEEE-754 double range, which for double
exponents happens exactly when `e ≥ 1024`; below the threshold it returns a
finite float, idealised here as the exact real value. -/
noncomputable def pyPow2 (e : ℚ) : Except String ℝ :=
  if 1024 ≤ e then Except.error "OverflowError" else Except.ok ((2 : ℝ) ^ (e : ℝ))

/-- The tonal stages of lines 167-182 with the CPython behaviour of
`2 ** exposure` threaded through: an OverflowError escapes the pipeline. -/
noncomputable def tonalChecked (b c e : ℚ) (v : ℝ) : Except String ℝ := do
  let v1 := brightnessStage b v
  let v2 := contrastStage c v1
  let v3 ← if e ≠ 0 then do
      let p ← pyPow2 e
      pure (clamp01 (v2 * p))
    else pure v2
  pure (gammaStage c v3)

/-- One optional clause of the summary: present exactly when its rule
fires.  Used to state the clause-list contract of §4.5 of the spec. -/
def optClause (c : Prop) [Decidable c] (s : String) : List String :=
  if c then [s] else []

/-- The clause list as the specification words it (§4.5): six independent
rules evaluated in the fixed order sharpness, contrast, saturation,
brightness, hue, exposure, each contributing zero or one clause. -/
def specSummaryClauses (fmt1 fmt0 : ℚ → String) (om pm : Metrics)
    (adj : Adjustments) : List String :=
  optClause (|pm.sharpness - om.sharpness| > 50)
    (if pm.sharpness - om.sharpness > 0 then
        "Enhanced image sharpness for clearer details"
      else "Softened image sharpness for smoother appearance") ++
  optClause (|pm.contrast - om.contrast| > 10)
    (if pm.contrast - om.contrast > 0 then
        "Increased contrast to make features more distinct"
      else "Reduced contrast for a more balanced look") ++
  optClause (|pm.saturation - om.saturation| > 20)
    (if pm.saturation - om.saturation > 0 then
        "Boosted color saturation for more vibrant colors"
      else "Desaturated colors for a more muted, elegant tone") ++
  optClause (adj.brightness ≠ 0)
    (if adj.brightness > 0 then
        "Brightened the image by " ++ fmt1 adj.brightness ++ " levels"
      else "Darkened the image by " ++ fmt1 (abs adj.brightness) ++ " levels") ++
  optClause (adj.hue ≠ 0)
    ("Shifted color hue by " ++ fmt0 adj.hue ++ " degrees") ++
  optClause (adj.exposure ≠ 0)
    (if adj.exposure > 0 then
        "Increased exposure by " ++ fmt1 adj.exposure ++ " stops"
      else "Decreased exposure by " ++ fmt1 (abs adj.exposure) ++ " stops")

/-- A concrete, fully computable model of the external library, used to
instantiate witnesses and counterexamples. -/
def lib0 : Lib :=
  { bgr2gray := fun im => im.map Px.c1
    laplacian := fun g => g.map (fun n => (n : ℚ))
    varOf := fun _ => 0
    calcHist := fun _ => []
    stdQ := fun _ => 0
    meanQ := fun _ => 1
    stdN := fun _ => 0
    bgr2hsv := fun im => im
    hsv2bgr := fun im => im
    bgr2lab := fun im => im
    lab2bgr := fun im => im
    clahe := fun l => l
    pyFmt1 := fun _ => ""
    pyFmt0 := fun _ => "" }

/-- An all-black one-pixel image: mean grayscale 0, contrast metric 0,
saturation metric 0 under `lib0`. -/
def imgA : Image := [⟨0, 0, 0⟩]

/-- A configuration requesting only auto-enhancement. -/
def cfgA : Config := { auto_enhance := true }

/-- `lib0` with a BGR→HSV conversion whose hue channel is always in
`[0,180)`, matching the OpenCV uint8 hue convention. -/
def libW : Lib :=
  { lib0 with bgr2hsv := fun im => im.map (fun p => ⟨p.c0 % 180, p.c1, p.c2⟩) }

/-- A configuration with a non-identity saturation. -/
def cfgW : Config := { saturation := 1/2 }

/-- Modelled from OpenCV (external library): `cvRound`, rounding to the
nearest integer with ties to even, as used by `saturate_cast`. -/
def cvRound (x : ℚ) : ℤ :=
  if x - ⌊x⌋ > 1/2 then ⌊x⌋ + 1
  else if x - ⌊x⌋ < 1/2 then ⌊x⌋
  else if ⌊x⌋ % 2 = 0 then ⌊x⌋ else ⌊x⌋ + 1

/-- Modelled from OpenCV: `saturate_cast` to uchar of a float value —
round to nearest even, then clamp to `[0,255]`. -/
def sat8 (x : ℚ) : ℕ := (max 0 (min 255 (cvRound x))).toNat

/-- Modelled from OpenCV RGB2HSV_b: the fixed-point saturation divisor
table, `sdiv_table[v] = saturate_cast ((255 << 12) / v)`, entry 0 zero. -/
def sdivTable (v : ℕ) : ℤ :=
  if v = 0 then 0 else cvRound ((255 * 4096 : ℚ) / v)

/-- Modelled from OpenCV RGB2HSV_b: the fixed-point hue divisor table,
`hdiv_table[d] = saturate_cast ((180 << 12) / (6 d))`, entry 0 zero. -/
def hdivTable (d : ℕ) : ℤ :=
  if d = 0 then 0 else cvRound ((180 * 4096 : ℚ) / (6 * d))

/-- Modelled from OpenCV cvtColor BGR2HSV on 8-bit pixels (RGB2HSV_b):
V is the maximal channel; S is the scaled difference to the minimal
channel, via the shift-12 fixed point with rounding term 2048 and
arithmetic (floor) shift; H is the hue numerator of the maximal channel
branch through the same fixed point on the 0-179 half-degree scale,
shifted into `[0,180)` when negative. -/
def bgr2hsvPix (p : Px) : Px :=
  let b : ℤ := p.c0
  let g : ℤ := p.c1
  let r : ℤ := p.c2
  let v := max b (max g r)
  let mn := min b (min g r)
  let diff := v - mn
  let s := Int.fdiv (diff * sdivTable v.toNat + 2048) 4096
  let hraw := if v = r then g - b
    else if v = g then b - r + 2 * diff
    else r - g + 4 * diff
  let h0 := Int.fdiv (hraw * hdivTable diff.toNat + 2048) 4096
  let h := if h0 < 0 then h0 + 180 else h0
  ⟨h.toNat, s.toNat, v.toNat⟩

/-- Modelled from OpenCV cvtColor HSV2BGR on 8-bit pixels (HSV2RGB_f via
HSV2RGB_b): scale S and V into `[0,1]` and H by 6/180, reduce the scaled
hue into `[0,6)` (for uint8 hue inputs up to 255 one subtraction of 6
suffices), split into integer sector and fraction, form the four
tabulated values, pick the (b,g,r) triple of the sector per the OpenCV
sector table, and saturate-cast each channel times 255 back to uint8. -/
def hsv2bgrPix (p : Px) : Px :=
  let s : ℚ := (p.c1 : ℚ) / 255
  let v : ℚ := (p.c2 : ℚ) / 255
  let hs : ℚ := (p.c0 : ℚ) * (6 / 180)
  let h6 : ℚ := if 6 ≤ hs then hs - 6 else hs
  let sector : ℤ := ⌊h6⌋
  let f : ℚ := h6 - sector
  let tab0 := v
  let tab1 := v * (1 - s)
  let tab2 := v * (1 - s * f)
  let tab3 := v * (1 - s * (1 - f))
  let bgr : ℚ × ℚ × ℚ :=
    if sector = 0 then (tab1, tab3, tab0)
    else if sector = 1 then (tab1, tab0, tab2)
    else if sector = 2 then (tab3, tab1, tab0)
    else if sector = 3 then (tab0, tab1, tab2)
    else if sector = 4 then (tab0, tab3, tab1)
    else (tab2, tab0, tab1)
  ⟨sat8 (bgr.1 * 255), sat8 (bgr.2.1 * 255), sat8 (bgr.2.2 * 255)⟩

/-- `lib0` with the OpenCV-modelled uint8 BGR↔HSV conversions. -/
def libCV : Lib :=
  { lib0 with bgr2hsv := fun im => im.map bgr2hsvPix
              hsv2bgr := fun im => im.map hsv2bgrPix }

/-- A one-pixel image, BGR (0,100,255), whose uint8 HSV round trip is
lossy under OpenCV: the hue angle 23.53 degrees quantises to 12 on the
half-degree scale, which reconstructs the green channel as 102. -/
def imgCE : Image := [⟨0, 100, 255⟩]

/-! ### Helper lemmas -/

theorem toU8_natCast (n : ℕ) : toU8 (n : ℚ) = n := by
  simp [toU8]

theorem tonal_id (v : ℝ) : tonal 0 1 0 v = v := by
  simp [tonal, gammaStage, exposureStage, contrastStage, brightnessStage]

theorem denorm_norm8R (n : ℕ) : denorm (norm8R n) = n := by
  rw [denorm, norm8R, div_mul_cancel₀ _ (by norm_num : (255 : ℝ) ≠ 0)]
  simp

theorem tonalPix_id (p : Px) : tonalPix 0 1 0 p = p := by
  cases p
  simp [tonalPix, tonal_id, denorm_norm8R]

theorem map_tonalPix_id (l : Image) : List.map (tonalPix 0 1 0) l = l := by
  induction l with
  | nil => rfl
  | cons p t ih => simp [tonalPix_id, ih]

theorem summary_no_change (fmt1 fmt0 : ℚ → String) (m : Metrics) :
    generate_explainable_summary fmt1 fmt0 m m ⟨0, 1, 1, 0, 0⟩ =
      "Applied subtle enhancements to improve overall image quality" := by
  norm_num [generate_explainable_summary, String.intercalate, String.intercalate.go]

/-! ### C1: identity configuration is a no-op -/

/-- C1: for every valid decoded image, `process_image` with the identity
configuration (brightness 0, contrast 1, saturation 1, hue 0, exposure 0,
no accessibility filter, no auto-enhance) writes an output image
byte-identical to the input image, and returns exactly the single generic
fallback clause as its summary. -/
theorem process_image_identity (lib : Lib) (img : Image) :
    process_image lib (some img) {} =
      ⟨some img, "Applied subtle enhancements to improve overall image quality"⟩ := by
  unfold process_image
  norm_num [autoEnhance, filterRequested, map_tonalPix_id, summary_no_change]

/-! ### C2: the tonal pipeline never leaves the valid range -/

theorem clamp01_nonneg (x : ℝ) : 0 ≤ clamp01 x := le_max_left 0 _

theorem clamp01_le_one (x : ℝ) : clamp01 x ≤ 1 :=
  max_le zero_le_one (min_le_left 1 x)

theorem brightnessStage_mem (b : ℚ) {v : ℝ} (h0 : 0 ≤ v) (h1 : v ≤ 1) :
    0 ≤ brightnessStage b v ∧ brightnessStage b v ≤ 1 := by
  unfold brightnessStage
  split
  · exact ⟨clamp01_nonneg _, clamp01_le_one _⟩
  · exact ⟨h0, h1⟩

theorem contrastStage_mem (c : ℚ) {v : ℝ} (h0 : 0 ≤ v) (h1 : v ≤ 1) :
    0 ≤ contrastStage c v ∧ contrastStage c v ≤ 1 := by
  unfold contrastStage
  split
  · exact ⟨clamp01_nonneg _, clamp01_le_one _⟩
  · exact ⟨h0, h1⟩

theorem exposureStage_mem (e : ℚ) {v : ℝ} (h0 : 0 ≤ v) (h1 : v ≤ 1) :
    0 ≤ exposureStage e v ∧ exposureStage e v ≤ 1 := by
  unfold exposureStage
  split
  · exact ⟨clamp01_nonneg _, clamp01_le_one _⟩
  · exact ⟨h0, h1⟩

theorem gammaExp_nonneg (c : ℚ) : 0 ≤ gammaExp c := by
  unfold gammaExp
  split
  · positivity
  · norm_num

theorem gammaStage_mem (c : ℚ) {v : ℝ} (h0 : 0 ≤ v) (h1 : v ≤ 1) :
    0 ≤ gammaStage c v ∧ gammaStage c v ≤ 1 := by
  unfold gammaStage
  split
  · refine ⟨Real.rpow_nonneg h0 _, Real.rpow_le_one h0 h1 ?_⟩
    exact_mod_cast gammaExp_nonneg c
  · exact ⟨h0, h1⟩

theorem tonal_mem (b c e : ℚ) {v : ℝ} (h0 : 0 ≤ v) (h1 : v ≤ 1) :
    0 ≤ tonal b c e v ∧ tonal b c e v ≤ 1 := by
  have hb := brightnessStage_mem b h0 h1
  have hc := contrastStage_mem c hb.1 hb.2
  have he := exposureStage_mem e hc.1 hc.2
  exact gammaStage_mem c he.1 he.2

theorem norm8R_mem {n : ℕ} (hn : n ≤ 255) : 0 ≤ norm8R n ∧ norm8R n ≤ 1 := by
  unfold norm8R
  constructor
  · positivity
  · rw [div_le_one (by norm_num : (0 : ℝ) < 255)]
    exact_mod_cast hn

theorem floor_scale_nonneg {x : ℝ} (h0 : 0 ≤ x) : 0 ≤ (⌊x * 255⌋ : ℤ) :=
  Int.floor_nonneg.mpr (by positivity)

theorem floor_scale_le {x : ℝ} (h1 : x ≤ 1) : (⌊x * 255⌋ : ℤ) ≤ 255 := by
  have hx : x * 255 ≤ 255 := by nlinarith
  calc (⌊x * 255⌋ : ℤ) ≤ ⌊(255 : ℝ)⌋ := Int.floor_le_floor hx
    _ = 255 := by norm_num

theorem denorm_le_255 {x : ℝ} (h1 : x ≤ 1) : denorm x ≤ 255 := by
  unfold denorm
  have := floor_scale_le h1
  omega

/-- C2: for every valid decoded image and any brightness, contrast and
exposure values, the normalised float image stays inside `[0,1]` through
every tonal stage (so the scaled integer `⌊v*255⌋` lies in `[0,255]` and the
uint8 conversion never wraps), and every channel of every pixel the tonal
stage writes is at most 255. -/
theorem tonal_stage_in_range (b c e : ℚ) (img : Image)
    (himg : ∀ p ∈ img, p.c0 ≤ 255 ∧ p.c1 ≤ 255 ∧ p.c2 ≤ 255) :
    (∀ p ∈ img, ∀ n ∈ [p.c0, p.c1, p.c2],
        (0 ≤ tonal b c e (norm8R n) ∧ tonal b c e (norm8R n) ≤ 1) ∧
        0 ≤ (⌊tonal b c e (norm8R n) * 255⌋ : ℤ) ∧
        (⌊tonal b c e (norm8R n) * 255⌋ : ℤ) ≤ 255) ∧
    (∀ q ∈ img.map (tonalPix b c e), q.c0 ≤ 255 ∧ q.c1 ≤ 255 ∧ q.c2 ≤ 255) := by
  have key : ∀ n : ℕ, n ≤ 255 →
      (0 ≤ tonal b c e (norm8R n) ∧ tonal b c e (norm8R n) ≤ 1) ∧
      0 ≤ (⌊tonal b c e (norm8R n) * 255⌋ : ℤ) ∧
      (⌊tonal b c e (norm8R n) * 255⌋ : ℤ) ≤ 255 := by
    intro n hn
    obtain ⟨h0, h1⟩ := norm8R_mem hn
    obtain ⟨t0, t1⟩ := tonal_mem b c e h0 h1
    exact ⟨⟨t0, t1⟩, floor_scale_nonneg t0, floor_scale_le t1⟩
  constructor
  · intro p hp n hn
    obtain ⟨h0, h1, h2⟩ := himg p hp
    simp only [List.mem_cons, List.not_mem_nil, or_false] at hn
    rcases hn with rfl | rfl | rfl
    · exact key _ h0
    · exact key _ h1
    · exact key _ h2
  · intro q hq
    simp only [List.mem_map] at hq
    obtain ⟨p, hp, rfl⟩ := hq
    obtain ⟨h0, h1, h2⟩ := himg p hp
    refine ⟨?_, ?_, ?_⟩
    · exact denorm_le_255 (tonal_mem b c e (norm8R_mem h0).1 (norm8R_mem h0).2).2
    · exact denorm_le_255 (tonal_mem b c e (norm8R_mem h1).1 (norm8R_mem h1).2).2
    · exact denorm_le_255 (tonal_mem b c e (norm8R_mem h2).1 (norm8R_mem h2).2).2

/-- Witness for C2 at a concrete pixel and out-of-domain adjustments. -/
theorem tonal_stage_in_range_witness :
    (∀ p ∈ ([⟨10, 200, 255⟩] : Image), p.c0 ≤ 255 ∧ p.c1 ≤ 255 ∧ p.c2 ≤ 255) ∧
    ((∀ p ∈ ([⟨10, 200, 255⟩] : Image), ∀ n ∈ [p.c0, p.c1, p.c2],
        (0 ≤ tonal (3/2) (-2) 7 (norm8R n) ∧ tonal (3/2) (-2) 7 (norm8R n) ≤ 1) ∧
        0 ≤ (⌊tonal (3/2) (-2) 7 (norm8R n) * 255⌋ : ℤ) ∧
        (⌊tonal (3/2) (-2) 7 (norm8R n) * 255⌋ : ℤ) ≤ 255) ∧
    (∀ q ∈ ([⟨10, 200, 255⟩] : Image).map (tonalPix (3/2) (-2) 7),
        q.c0 ≤ 255 ∧ q.c1 ≤ 255 ∧ q.c2 ≤ 255)) :=
  ⟨by decide, tonal_stage_in_range (3/2) (-2) 7 [⟨10, 200, 255⟩] (by decide)⟩

/-! ### C3: the gamma stage is gated on the contrast flag -/

/-- C3: the gamma-correction stage runs exactly when the effective contrast
is not 1 (so never when only brightness or exposure are adjusted, and always
when contrast differs from 1); when it runs, the element-wise exponent is
`1/contrast` when `contrast > 0` and `1` otherwise, with the guard total in
the non-positive case. -/
theorem gamma_stage_gating (b c e : ℚ) (v : ℝ) :
    tonal b c e v =
      (if c = 1 then exposureStage e (contrastStage c (brightnessStage b v))
       else exposureStage e (contrastStage c (brightnessStage b v))
              ^ ((gammaExp c : ℚ) : ℝ)) ∧
    gammaExp c = (if 0 < c then 1 / c else 1) := by
  refine ⟨?_, rfl⟩
  unfold tonal gammaStage
  rcases eq_or_ne c 1 with h | h <;> simp [h]

/-! ### C4: the auto-enhance heuristic -/

/-- C4: with auto-enhance on, the effective brightness is the requested
one plus 0.2 below mean grayscale 80 and minus 0.2 above 180 (the two rules
are mutually exclusive), the effective contrast is `max(requested, 1.2)`
exactly when the original contrast metric is below 30, the effective
saturation is `max(requested, 1.1)` exactly when the original saturation
metric is below 100, every other configuration field is unchanged, and with
auto-enhance off the requested configuration is used as-is. -/
theorem auto_enhance_spec (lib : Lib) (img : Image) (cfg : Config) :
    (cfg.auto_enhance = false →
      autoEnhance lib img (calculate_perceptual_metrics lib img) cfg = cfg) ∧
    (cfg.auto_enhance = true →
      (let om := calculate_perceptual_metrics lib img
       let eff := autoEnhance lib img om cfg
       (meanGray lib img < 80 → eff.brightness = cfg.brightness + 1/5) ∧
       (meanGray lib img > 180 → eff.brightness = cfg.brightness - 1/5) ∧
       ¬(meanGray lib img < 80 ∧ meanGray lib img > 180) ∧
       (om.contrast < 30 → eff.contrast = max cfg.contrast (6/5)) ∧
       (¬om.contrast < 30 → eff.contrast = cfg.contrast) ∧
       (om.saturation < 100 → eff.saturation = max cfg.saturation (11/10)) ∧
       (¬om.saturation < 100 → eff.saturation = cfg.saturation) ∧
       eff.hue = cfg.hue ∧ eff.exposure = cfg.exposure ∧
       eff.accessibility_filter = cfg.accessibility_filter ∧
       eff.auto_enhance = cfg.auto_enhance)) := by
  constructor
  · intro h
    simp [autoEnhance, h]
  · intro h
    dsimp only
    unfold autoEnhance
    rw [h]
    simp only [if_true]
    refine ⟨?_, ?_, ?_, ?_, ?_, ?_, ?_, by trivial, by trivial, by trivial, by trivial⟩
    · intro h'
      simp [h']
    · intro h'
      have : ¬meanGray lib img < 80 := by linarith
      simp [this, h']
    · rintro ⟨ha, hb⟩
      linarith
    · intro h'
      simp [h']
    · intro h'
      simp [h']
    · intro h'
      simp [h']
    · intro h'
      simp [h']

/-- Witness for C4: on the all-black image all three auto-enhance rules
fire. -/
theorem auto_enhance_spec_witness :
    (autoEnhance lib0 imgA (calculate_perceptual_metrics lib0 imgA) cfgA).brightness
        = cfgA.brightness + 1/5 ∧
    (autoEnhance lib0 imgA (calculate_perceptual_metrics lib0 imgA) cfgA).contrast
        = max cfgA.contrast (6/5) ∧
    (autoEnhance lib0 imgA (calculate_perceptual_metrics lib0 imgA) cfgA).saturation
        = max cfgA.saturation (11/10) ∧
    (autoEnhance lib0 imgA (calculate_perceptual_metrics lib0 imgA) cfgA).hue
        = cfgA.hue := by
  have h := (auto_enhance_spec lib0 imgA cfgA).2 rfl
  dsimp only at h
  have hm : meanGray lib0 imgA < 80 := by
    norm_num [meanGray, lib0, imgA, listMean]
  have hc : (calculate_perceptual_metrics lib0 imgA).contrast < 30 := by
    norm_num [calculate_perceptual_metrics, lib0, imgA]
  have hs : (calculate_perceptual_metrics lib0 imgA).saturation < 100 := by
    norm_num [calculate_perceptual_metrics, lib0, imgA, listMean]
  exact ⟨h.1 hm, h.2.2.2.1 hc, h.2.2.2.2.2.1 hs, h.2.2.2.2.2.2.2.1⟩

/-! ### C5: hue = 180 versus hue = 0 -/

theorem autoEnhance_not_auto (lib : Lib) (img : Image) (om : Metrics)
    (cfg : Config) (h : cfg.auto_enhance = false) :
    autoEnhance lib img om cfg = cfg := by
  simp [autoEnhance, h]

theorem fmod180_add_180 {x : ℚ} (h0 : 0 ≤ x) (h1 : x < 180) :
    fmod180 (x + 180) = x := by
  unfold fmod180
  have hfl : ⌊(x + 180) / 180⌋ = 1 := by
    rw [Int.floor_eq_iff]
    constructor
    · push_cast
      rw [le_div_iff₀ (by norm_num : (0 : ℚ) < 180)]
      linarith
    · push_cast
      rw [div_lt_iff₀ (by norm_num : (0 : ℚ) < 180)]
      linarith
  rw [hfl]
  push_cast
  ring

theorem hsvAdjustPix_hue180 (s : ℚ) (p : Px) (hp : p.c0 < 180) :
    hsvAdjustPix s 180 p = hsvAdjustPix s 0 p := by
  have h : fmod180 ((p.c0 : ℚ) + 180) = (p.c0 : ℚ) :=
    fmod180_add_180 (by positivity) (by exact_mod_cast hp)
  simp [hsvAdjustPix, h]

theorem autoEnhance_hue (lib : Lib) (img : Image) (om : Metrics)
    (cfg : Config) (h : ℚ) :
    autoEnhance lib img om { cfg with hue := h } =
      { autoEnhance lib img om cfg with hue := h } := by
  cases cfg
  unfold autoEnhance
  dsimp only
  split <;> rfl

theorem autoEnhance_saturation_ne_one (lib : Lib) (img : Image) (om : Metrics)
    (cfg : Config) (hs : cfg.saturation ≠ 1) :
    (autoEnhance lib img om cfg).saturation ≠ 1 := by
  unfold autoEnhance
  split
  · dsimp only
    split
    · intro hmax
      have h11 : (11/10 : ℚ) ≤ max cfg.saturation (11/10) := le_max_right _ _
      rw [hmax] at h11
      norm_num at h11
    · exact hs
  · exact hs

/-- C5 counterexample: with all other adjustments at their defaults
(saturation 1), the hue=0 call skips the HSV round trip entirely while the
hue=180 call performs it; at the pixel BGR (0,100,255) the OpenCV uint8
round trip is lossy (the hue angle 23.53 degrees quantises to 12 on the
half-degree scale, which reconstructs the green channel as 102), so the
two calls produce different output images and the claim as stated is
false. -/
theorem hue180_counterexample :
    (process_image libCV (some imgCE) { hue := 180 }).output ≠
      (process_image libCV (some imgCE) { hue := 0 }).output := by
  unfold process_image
  have hhsv : bgr2hsvPix ⟨0, 100, 255⟩ = ⟨12, 255, 255⟩ := by
    norm_num [bgr2hsvPix, sdivTable, hdivTable, cvRound, Rat.floor_def, Int.fdiv]
    simp only [Int.toNat]
    norm_num [Rat.floor_def]
  have hback : hsv2bgrPix ⟨12, 255, 255⟩ = ⟨0, 102, 255⟩ := by
    norm_num [hsv2bgrPix, sat8, cvRound, Rat.floor_def]
    omega
  have h12 : fmod180 ((12 : ℚ) + 180) = 12 :=
    fmod180_add_180 (by norm_num) (by norm_num)
  have hadj : hsvAdjustPix 1 180 ⟨12, 255, 255⟩ = ⟨12, 255, 255⟩ := by
    simp [hsvAdjustPix, clamp255, toU8, h12]
  norm_num [autoEnhance, tonalPix_id, hhsv, hback, hadj, libCV, lib0, imgCE,
    filterRequested]

/-- C5 amended: whenever the saturation adjustment is not 1 — so the HSV
stage runs in both calls — and the library BGR→HSV conversion keeps hue
values in `[0,180)` (the OpenCV uint8 convention), running with hue=180
produces the same output image as running with hue=0 and all other
adjustment values equal.  When saturation is 1 the hue=0 call skips the HSV
round trip that the hue=180 call performs, and the outputs need not be
byte-identical. -/
theorem hue180_equiv_when_hsv_stage_runs (lib : Lib)
    (hlib : ∀ im : Image, ∀ p ∈ lib.bgr2hsv im, p.c0 < 180)
    (img : Image) (cfg : Config) (hs : cfg.saturation ≠ 1) :
    (process_image lib (some img) { cfg with hue := 180 }).output =
      (process_image lib (some img) { cfg with hue := 0 }).output := by
  have hmap : ∀ s : ℚ, ∀ l : Image,
      List.map (hsvAdjustPix s 180) (lib.bgr2hsv l) =
        List.map (hsvAdjustPix s 0) (lib.bgr2hsv l) := by
    intro s l
    exact List.map_congr_left (fun p hp => hsvAdjustPix_hue180 s p (hlib l p hp))
  unfold process_image
  dsimp only
  simp only [autoEnhance_hue]
  have hsE : (autoEnhance lib img (calculate_perceptual_metrics lib img)
      cfg).saturation ≠ 1 :=
    autoEnhance_saturation_ne_one lib img _ cfg hs
  rw [if_pos (Or.inl hsE :
        (autoEnhance lib img (calculate_perceptual_metrics lib img)
          cfg).saturation ≠ 1 ∨ (180 : ℚ) ≠ 0),
      if_pos (Or.inl hsE :
        (autoEnhance lib img (calculate_perceptual_metrics lib img)
          cfg).saturation ≠ 1 ∨ (0 : ℚ) ≠ 0)]
  rw [hmap]

/-- Witness for the amended C5 on a concrete library, image and
configuration with saturation 1/2. -/
theorem hue180_equiv_witness :
    cfgW.saturation ≠ 1 ∧
    (process_image libW (some imgA) { cfgW with hue := 180 }).output =
      (process_image libW (some imgA) { cfgW with hue := 0 }).output := by
  constructor
  · norm_num [cfgW]
  · refine hue180_equiv_when_hsv_stage_runs libW ?_ imgA cfgW
      (by norm_num [cfgW])
    intro im p hp
    simp only [libW, lib0, List.mem_map] at hp
    obtain ⟨q, _, rfl⟩ := hp
    exact Nat.mod_lt _ (by norm_num)

/-! ### C6: the protanopia filter -/

theorem norm8_mul_255 (n : ℕ) : norm8 n * 255 = (n : ℚ) := by
  rw [norm8, div_mul_cancel₀ _ (by norm_num : (255 : ℚ) ≠ 0)]

theorem toU8_roundtrip (n : ℕ) : toU8 (norm8 n * 255) = n := by
  rw [norm8_mul_255, toU8_natCast]

theorem half_scale (n : ℕ) : norm8 n * (1/2) * 255 = (n : ℚ) / 2 := by
  unfold norm8
  ring

theorem toU8_half (n : ℕ) : toU8 ((n : ℚ) / 2) = n / 2 := by
  rw [toU8, Int.floor_toNat]
  exact_mod_cast
    (Nat.floor_div_eq_div n 2 : ⌊(n : ℚ) / ((2 : ℕ) : ℚ)⌋₊ = n / 2)

/-- C6: the protanopia filter replaces, for every pixel, the red channel by
half of that pixel's green channel value (in the normalised float space
exactly half, hence `⌊g/2⌋` after the uint8 conversion, and 0 for a
pure-red pixel), and leaves the green and blue channels byte-identical; in
particular a pure-red BGR pixel (0,0,255) becomes (0,0,0). -/
theorem protanopia_spec (lib : Lib) (img : Image) :
    apply_accessibility_filters lib img "colorblind_protanopia" =
      img.map (fun p => ⟨p.c0, p.c1, p.c1 / 2⟩) ∧
    apply_accessibility_filters lib [⟨0, 0, 255⟩] "colorblind_protanopia" =
      [⟨0, 0, 0⟩] := by
  have hpix : ∀ p : Px, protanopiaPix p = ⟨p.c0, p.c1, p.c1 / 2⟩ := by
    intro p
    rw [protanopiaPix, toU8_roundtrip, toU8_roundtrip, half_scale, toU8_half]
  constructor
  · simp [apply_accessibility_filters, hpix]
  · simp [apply_accessibility_filters, hpix]

/-! ### C7: unrecognized filter kinds are the identity -/

/-- C7: for every filter kind outside the four defined kinds — including
"none" and any unrecognized string — `apply_accessibility_filters` returns
its input image unchanged. -/
theorem filter_unrecognized_identity (lib : Lib) (img : Image) (ft : String)
    (h1 : ft ≠ "high_contrast") (h2 : ft ≠ "colorblind_protanopia")
    (h3 : ft ≠ "colorblind_deuteranopia") (h4 : ft ≠ "colorblind_tritanopia") :
    apply_accessibility_filters lib img ft = img := by
  simp [apply_accessibility_filters, h1, h2, h3, h4]

/-- Witness for C7 at the filter kind "none". -/
theorem filter_unrecognized_identity_witness :
    (("none" : String) ≠ "high_contrast" ∧
     ("none" : String) ≠ "colorblind_protanopia" ∧
     ("none" : String) ≠ "colorblind_deuteranopia" ∧
     ("none" : String) ≠ "colorblind_tritanopia") ∧
    apply_accessibility_filters lib0 [⟨1, 2, 3⟩] "none" = [⟨1, 2, 3⟩] :=
  ⟨⟨by decide, by decide, by decide, by decide⟩,
   filter_unrecognized_identity lib0 [⟨1, 2, 3⟩] "none"
     (by decide) (by decide) (by decide) (by decide)⟩

/-! ### C8: the explainable summary generator -/

theorem mem_optClause {c : Prop} [Decidable c] {s x : String}
    (h : x ∈ optClause c s) : x = s := by
  unfold optClause at h
  split at h <;> simp_all

theorem intercalate_go_length (sep : String) (as : List String) (acc : String) :
    acc.length ≤ (String.intercalate.go acc sep as).length := by
  induction as generalizing acc with
  | nil => simp [String.intercalate.go]
  | cons a as ih =>
    rw [show String.intercalate.go acc sep (a :: as) =
          String.intercalate.go (acc ++ sep ++ a) sep as from rfl]
    calc acc.length ≤ (acc ++ sep ++ a).length := by
          simp only [String.length_append]
          omega
      _ ≤ _ := ih (acc ++ sep ++ a)

theorem intercalate_cons_ne_empty (sep a : String) (as : List String)
    (ha : 0 < a.length) : String.intercalate sep (a :: as) ≠ "" := by
  intro h
  have h2 := intercalate_go_length sep as a
  rw [show String.intercalate sep (a :: as) = String.intercalate.go a sep as
        from rfl] at h
  rw [h] at h2
  simp at h2
  omega

theorem length_append3_pos (a b c : String) (ha : 0 < a.length) :
    0 < (a ++ b ++ c).length := by
  simp only [String.length_append]
  omega

theorem intercalate_fallback_ne_empty (l : List String)
    (hl : ∀ x ∈ l, 0 < x.length) (fb : String) (hfb : 0 < fb.length) :
    String.intercalate " • " (if l = [] then [fb] else l) ≠ "" := by
  split
  · exact intercalate_cons_ne_empty _ _ _ hfb
  · next h =>
    obtain ⟨a, as, rfl⟩ := List.exists_cons_of_ne_nil h
    exact intercalate_cons_ne_empty _ _ _ (hl a (List.mem_cons_self a as))

/-- C8: the summary equals the six ordered optional clauses (sharpness,
contrast, saturation, gated on metric deltas exceeding 50, 10, 20 in
absolute value; brightness, hue, exposure, gated on nonzero adjustment
values) joined in that fixed order by the fixed separator, with the single
generic fallback clause appearing exactly when none of the six rules fired;
and the returned string is always non-empty. -/
theorem summary_spec (fmt1 fmt0 : ℚ → String) (om pm : Metrics)
    (adj : Adjustments) :
    generate_explainable_summary fmt1 fmt0 om pm adj =
      String.intercalate " • "
        (if specSummaryClauses fmt1 fmt0 om pm adj = []
         then ["Applied subtle enhancements to improve overall image quality"]
         else specSummaryClauses fmt1 fmt0 om pm adj) ∧
    generate_explainable_summary fmt1 fmt0 om pm adj ≠ "" := by
  have heq : generate_explainable_summary fmt1 fmt0 om pm adj =
      String.intercalate " • "
        (if specSummaryClauses fmt1 fmt0 om pm adj = []
         then ["Applied subtle enhancements to improve overall image quality"]
         else specSummaryClauses fmt1 fmt0 om pm adj) := by
    unfold generate_explainable_summary specSummaryClauses optClause
    by_cases h1 : |pm.sharpness - om.sharpness| > 50 <;>
    by_cases h2 : |pm.contrast - om.contrast| > 10 <;>
    by_cases h3 : |pm.saturation - om.saturation| > 20 <;>
    by_cases h4 : adj.brightness ≠ 0 <;>
    by_cases h5 : adj.hue ≠ 0 <;>
    by_cases h6 : adj.exposure ≠ 0 <;>
    simp [h1, h2, h3, h4, h5, h6]
  refine ⟨heq, ?_⟩
  rw [heq]
  apply intercalate_fallback_ne_empty
  · intro x hx
    unfold specSummaryClauses at hx
    simp only [List.mem_append] at hx
    rcases hx with ((((hx | hx) | hx) | hx) | hx) | hx
    · rw [mem_optClause hx]
      split <;> decide
    · rw [mem_optClause hx]
      split <;> decide
    · rw [mem_optClause hx]
      split <;> decide
    · rw [mem_optClause hx]
      split
      · exact length_append3_pos _ _ _ (by decide)
      · exact length_append3_pos _ _ _ (by decide)
    · rw [mem_optClause hx]
      exact length_append3_pos _ _ _ (by decide)
    · rw [mem_optClause hx]
      split
      · exact length_append3_pos _ _ _ (by decide)
      · exact length_append3_pos _ _ _ (by decide)
  · decide

/-! ### C9: an exception escapes the tonal pipeline -/

/-- C9 (divergence): the claim and the spec propagation policy say no
exception escapes the tonal pipeline for any finite configuration, but the
CPython power `2 ** exposure` of line 177 raises OverflowError for any
finite exposure at or above 1024; at exposure 2000 the checked pipeline
produces the error instead of a value. -/
theorem exposure_overflow_escapes :
    tonalChecked 0 1 2000 (1/2) = Except.error "OverflowError" := by
  unfold tonalChecked pyPow2
  norm_num

/-! ### C10: decode failure is reported and nothing else happens -/

/-- C10: when the input cannot be decoded into a valid raster image
(`cv2.imread` returned None), `process_image` reports the decode-failure
string and writes no output image, for every configuration. -/
theorem decode_failure_reported (lib : Lib) (cfg : Config) :
    process_image lib none cfg = ⟨none, "Error: Could not load image"⟩ := rfl

end ImageProcessing
